import Mathlib

/-!
A shallow embedding of the photo-archive backend
(`app/api/routes.py`, `app/api/user_routes.py`, `app/api/schemas.py`,
`app/models/photo.py`, `app/models/user.py`) and proofs about its
validation, listing, update and deletion behaviour.

Modelling choices:
* Python floats (coordinates, parsed bounding boxes) are modelled as `ℚ`.
* Timestamps are modelled as `Nat` instants.
* The database is a snapshot: a list of `User` and `Photo` rows; the blob
  store is the list of file paths currently present on disk.
* Fallible endpoints return `Except ApiError α`; handlers that mutate state
  return the post-state alongside the result, mirroring exactly where the
  Python code raises relative to its side effects.
* External effects whose outcome the code merely branches on (thumbnail
  derivation success) are oracle parameters, as are generated UUIDs and
  clock reads.
-/

namespace PhotoArchive

/-- Splits a character list on a separator, like Python `str.split(sep)`:
`splitChar sep [] = [[]]` and separators delimit possibly empty fields. -/
def splitChar (sep : Char) : List Char → List (List Char)
  | [] => [[]]
  | c :: rest =>
    let r := splitChar sep rest
    if c = sep then [] :: r
    else
      match r with
      | h :: t => (c :: h) :: t
      | [] => [[c]]

/-- ASCII lower-casing of one character, as used by `str.lower()` on the
ASCII file extensions and search terms this service handles. -/
def lowerChar (c : Char) : Char :=
  if 'A' ≤ c ∧ c ≤ 'Z' then Char.ofNat (c.toNat + 32) else c

/-- ASCII `str.lower()`. -/
def lowerStr (s : String) : String := ⟨s.data.map lowerChar⟩

/-- The extension part of `os.path.splitext(name)[1]`: the suffix starting at
the last dot of the basename, except that a basename consisting of leading
dots only has no extension. -/
def fileExt (name : String) : String :=
  let base := (splitChar '/' name.data).getLastD []
  let parts := splitChar '.' base
  if parts.length ≤ 1 then ""
  else if parts.dropLast.all (fun part => part.isEmpty) then ""
  else ⟨'.' :: parts.getLastD []⟩

/-- Numeric value of a digit string. -/
def digitsToNat (l : List Char) : Nat :=
  l.foldl (fun a c => 10 * a + (c.toNat - 48)) 0

/-- Modelled from Python `float()` restricted to the plain decimal literals
relevant here: an optional sign, then digits with at most one decimal point
and at least one digit; anything else fails. -/
def pyFloat (cs : List Char) : Option ℚ :=
  let signBody : Bool × List Char :=
    match cs with
    | '-' :: r => (true, r)
    | '+' :: r => (false, r)
    | r => (false, r)
  let neg := signBody.1
  let body := signBody.2
  match splitChar '.' body with
  | [ip] =>
    if !ip.isEmpty && ip.all Char.isDigit then
      some (((if neg then -(digitsToNat ip : Int) else (digitsToNat ip : Int)) : ℚ))
    else none
  | [ip, fp] =>
    if (!ip.isEmpty || !fp.isEmpty) && (ip ++ fp).all Char.isDigit then
      some ((((if neg then -(((digitsToNat ip) * 10 ^ fp.length + digitsToNat fp : Nat) : Int)
               else (((digitsToNat ip) * 10 ^ fp.length + digitsToNat fp : Nat) : Int)) : ℚ)
             / ((10 ^ fp.length : Nat) : ℚ)))
    else none
  | _ => none

/-- `north, south, east, west = map(float, bounds.split(','))` from
`list_user_photos`: four comma-separated floats, in that order; wrong arity
or a non-numeric component is a `ValueError` (here `none`). -/
def parseBounds (b : String) : Option (ℚ × ℚ × ℚ × ℚ) :=
  match (splitChar ',' b.data).map pyFloat with
  | [some n, some s, some e, some w] => some (n, s, e, w)
  | _ => none

/-- Does `pat` occur at the front of `l`? (helper for the ILIKE search). -/
def subAt : List Char → List Char → Bool
  | [], _ => true
  | _ :: _, [] => false
  | a :: as, b :: bs => a = b && subAt as bs

/-- Does `pat` occur anywhere in `l`? (helper for the ILIKE search). -/
def subAny (pat : List Char) (l : List Char) : Bool :=
  match l with
  | [] => subAt pat []
  | _ :: rest => subAt pat l || subAny pat rest

/-- `column.ilike(f"%{term}%")`: case-insensitive substring match. -/
def ilike (term s : String) : Bool :=
  subAny (lowerStr term).data (lowerStr s).data

/-- `STORAGE_DIR` (default value). -/
def STORAGE_DIR : String := "./storage/photos"

/-- `THUMBNAIL_DIR` (default value). -/
def THUMBNAIL_DIR : String := "./storage/thumbnails"

/-- `ALLOWED_EXTENSIONS` from `routes.py`. -/
def ALLOWED_EXTENSIONS : List String :=
  [".jpg", ".jpeg", ".png", ".webp", ".mp4", ".mov", ".avi", ".webm"]

/-- The video extension set tested by `is_video_file`. -/
def VIDEO_EXTENSIONS : List String := [".mp4", ".mov", ".avi", ".webm"]

/-- `MAX_FILE_SIZE = 10 * 1024 * 1024` (10MB, images). -/
def MAX_FILE_SIZE : Nat := 10 * 1024 * 1024

/-- `MAX_VIDEO_SIZE = 100 * 1024 * 1024` (100MB, videos). -/
def MAX_VIDEO_SIZE : Nat := 100 * 1024 * 1024

/-- `is_video_file(filename)`: extension of the filename, lower-cased, is one
of `.mp4`, `.mov`, `.avi`, `.webm`. -/
def is_video_file (filename : String) : Bool :=
  VIDEO_EXTENSIONS.contains (lowerStr (fileExt filename))

/-- A `users` row (`app/models/user.py`). -/
structure User where
  id : String
  username : String
  display_name : String
  email : Option String
  avatar_path : Option String
  photo_count : Int
  total_storage_bytes : Int
  user_metadata : Option String
  created_at : Nat
  updated_at : Nat
  last_upload_at : Option Nat
deriving DecidableEq, Repr

/-- A `photos` row (`app/models/photo.py`). -/
structure Photo where
  id : String
  user_id : String
  filename : String
  storage_path : String
  thumbnail_path : Option String
  latitude : ℚ
  longitude : ℚ
  file_size : Nat
  mime_type : String
  photo_metadata : Option String
  upload_date : Nat
  created_at : Nat
  updated_at : Nat
deriving DecidableEq, Repr

/-- A snapshot of the whole persistent state: both tables plus the set of
file paths present under the storage and thumbnail directories. -/
structure ArchiveState where
  users : List User
  photos : List Photo
  fs : List String
deriving DecidableEq, Repr

/-- The error responses the modelled handlers can produce. -/
inductive ApiError where
  | userNotFound
  | photoNotFound
  | imageFileNotFound
  | thumbnailNotFound
  | invalidFileType
  | invalidLatitude
  | invalidLongitude
  | fileTooLarge
  | invalidBounds
  | validationFailed
  | internalError
deriving DecidableEq, Repr

/-- The HTTP status each error is reported with (404 not-found, 400 bad
request, 422 for FastAPI/pydantic parameter validation, 500 for an
unexpected exception caught by a generic handler). -/
def ApiError.statusCode : ApiError → Nat
  | .userNotFound => 404
  | .photoNotFound => 404
  | .imageFileNotFound => 404
  | .thumbnailNotFound => 404
  | .invalidFileType => 400
  | .invalidLatitude => 400
  | .invalidLongitude => 400
  | .fileTooLarge => 400
  | .invalidBounds => 400
  | .validationFailed => 422
  | .internalError => 500

/-- A client error is any 4xx status. -/
def ApiError.isClientError (e : ApiError) : Bool :=
  400 ≤ e.statusCode && e.statusCode < 500

/-- `PhotoUploadResponse` from `schemas.py` (the `location` dict is flattened
into its two float entries). -/
structure PhotoUploadResponse where
  id : String
  filename : String
  latitude : ℚ
  longitude : ℚ
  upload_date : Nat
  thumbnail_url : Option String
  image_url : String
deriving DecidableEq, Repr

/-- `PhotoDetail` from `schemas.py`, as produced by `Photo.to_dict`. -/
structure PhotoDetail where
  id : String
  user_id : String
  filename : String
  latitude : ℚ
  longitude : ℚ
  upload_date : Nat
  file_size : Nat
  mime_type : String
  photo_metadata : Option String
  thumbnail_url : Option String
  image_url : String
deriving DecidableEq, Repr

/-- `PhotoListResponse` from `schemas.py`. -/
structure PhotoListResponse where
  photos : List PhotoDetail
  total : Nat
  limit : Int
  offset : Int
deriving DecidableEq, Repr

/-- `PhotoDeleteResponse` from `schemas.py`. -/
structure PhotoDeleteResponse where
  success : Bool
  message : String
deriving DecidableEq, Repr

/-- `UserDetail` from `schemas.py` (`include_stats=True` shape). -/
structure UserDetail where
  id : String
  username : String
  display_name : String
  email : Option String
  avatar_url : Option String
  photo_count : Int
  total_storage_bytes : Int
  last_upload_at : Option Nat
  created_at : Nat
deriving DecidableEq, Repr

/-- `UserListResponse` from `schemas.py`. -/
structure UserListResponse where
  users : List UserDetail
  total : Nat
  limit : Int
  offset : Int
deriving DecidableEq, Repr

/-- The ad-hoc dict returned by `delete_user`. -/
structure UserDeleteResponse where
  success : Bool
  message : String
  photos_deleted : Int
deriving DecidableEq, Repr

/-- A binary `FileResponse(path, media_type=...)`. -/
structure FileResponse where
  path : String
  media_type : String
deriving DecidableEq, Repr

/-- `Photo.to_dict` from `app/models/photo.py` (without the embedded user). -/
def Photo.to_dict (p : Photo) : PhotoDetail :=
  { id := p.id
    user_id := p.user_id
    filename := p.filename
    latitude := p.latitude
    longitude := p.longitude
    upload_date := p.upload_date
    file_size := p.file_size
    mime_type := p.mime_type
    photo_metadata := p.photo_metadata
    thumbnail_url :=
      if p.thumbnail_path.isSome then some ("/api/v1/photos/" ++ p.id ++ "/thumbnail")
      else none
    image_url := "/api/v1/photos/" ++ p.id ++ "/image" }

/-- `User.to_dict(include_stats=True)` from `app/models/user.py`. -/
def User.to_dict (u : User) : UserDetail :=
  { id := u.id
    username := u.username
    display_name := u.display_name
    email := u.email
    avatar_url :=
      if u.avatar_path.isSome then some ("/api/v1/users/" ++ u.id ++ "/avatar")
      else none
    photo_count := u.photo_count
    total_storage_bytes := u.total_storage_bytes
    last_upload_at := u.last_upload_at
    created_at := u.created_at }

/-- `POST /photos/upload` (`upload_photo` in `routes.py`).

`photo_id` stands for the generated `uuid.uuid4()`, `file_size` for
`len(contents)`, `thumbnail_created` for the boolean outcome of the external
`create_thumbnail` / `create_video_thumbnail` call, and `now` for the clock
read used for the row timestamps.  The handler raises each validation error
before touching disk, so those branches return the state unchanged; the
success branch writes the original file (and the thumbnail file when
derivation succeeded) and prepends the new row. -/
def upload_photo (st : ArchiveState) (photo_id filename : String)
    (content_type : Option String) (file_size : Nat) (user_id : String)
    (latitude longitude : ℚ) (thumbnail_created : Bool) (now : Nat) :
    ArchiveState × Except ApiError PhotoUploadResponse :=
  if (st.users.find? fun u => u.id == user_id).isNone then
    (st, .error .userNotFound)
  else
    let file_ext := lowerStr (fileExt filename)
    if ¬ (ALLOWED_EXTENSIONS.contains file_ext = true) then
      (st, .error .invalidFileType)
    else if ¬ ((-90 : ℚ) ≤ latitude ∧ latitude ≤ 90) then
      (st, .error .invalidLatitude)
    else if ¬ ((-180 : ℚ) ≤ longitude ∧ longitude ≤ 180) then
      (st, .error .invalidLongitude)
    else
      let storage_path := STORAGE_DIR ++ "/" ++ photo_id ++ file_ext
      let thumbnail_path := THUMBNAIL_DIR ++ "/" ++ photo_id ++ "_thumb.jpg"
      let max_size := if is_video_file filename then MAX_VIDEO_SIZE else MAX_FILE_SIZE
      if file_size > max_size then
        (st, .error .fileTooLarge)
      else
        let fs1 := storage_path :: st.fs
        let fs2 := if thumbnail_created then thumbnail_path :: fs1 else fs1
        let photo : Photo :=
          { id := photo_id
            user_id := user_id
            filename := filename
            storage_path := storage_path
            thumbnail_path := if thumbnail_created then some thumbnail_path else none
            latitude := latitude
            longitude := longitude
            file_size := file_size
            mime_type :=
              match content_type with
              | none => "image/jpeg"
              | some ct => if ct = "" then "image/jpeg" else ct
            photo_metadata := none
            upload_date := now
            created_at := now
            updated_at := now }
        ({ users := st.users, photos := photo :: st.photos, fs := fs2 },
         .ok { id := photo_id
               filename := filename
               latitude := latitude
               longitude := longitude
               upload_date := now
               thumbnail_url :=
                 if thumbnail_created then
                   some ("/api/v1/photos/" ++ photo_id ++ "/thumbnail")
                 else none
               image_url := "/api/v1/photos/" ++ photo_id ++ "/image" })

/-- The descending `ORDER BY upload_date DESC` relation of `get_photos`. -/
def upload_desc (a b : Photo) : Prop := b.upload_date ≤ a.upload_date

instance : DecidableRel upload_desc := fun _ _ => Nat.decLe _ _

instance : IsTotal Photo upload_desc :=
  ⟨fun a b => Nat.le_total b.upload_date a.upload_date⟩

instance : IsTrans Photo upload_desc :=
  ⟨fun _ _ _ hab hbc => Nat.le_trans hbc hab⟩

/-- `GET /photos` (`get_photos` in `routes.py`): newest first, then the
`limit`/`offset` window; `total` is the unwindowed row count.  The handler
declares no bounds on `limit` or `offset`. -/
def get_photos (photos : List Photo) (limit offset : Nat) :
    Except ApiError PhotoListResponse :=
  .ok { photos :=
          (((photos.insertionSort upload_desc).drop offset).take limit).map Photo.to_dict
        total := photos.length
        limit := (limit : Int)
        offset := (offset : Int) }

/-- `GET /photos/{photo_id}` (`get_photo` in `routes.py`). -/
def get_photo (st : ArchiveState) (photo_id : String) :
    Except ApiError PhotoDetail :=
  match st.photos.find? fun p => p.id == photo_id with
  | none => .error .photoNotFound
  | some p => .ok p.to_dict

/-- `GET /photos/{photo_id}/image` (`get_photo_image` in `routes.py`):
404 when the row is missing, 404 when the file is missing on disk, else the
file served under the row's stored MIME type. -/
def get_photo_image (st : ArchiveState) (photo_id : String) :
    Except ApiError FileResponse :=
  match st.photos.find? fun p => p.id == photo_id with
  | none => .error .photoNotFound
  | some p =>
    if ¬ (st.fs.contains p.storage_path = true) then .error .imageFileNotFound
    else .ok { path := p.storage_path, media_type := p.mime_type }

/-- `GET /photos/{photo_id}/thumbnail` (`get_photo_thumbnail` in
`routes.py`): 404 when the row is missing or it has no thumbnail path or the
thumbnail file is missing; thumbnails are always served as `image/jpeg`. -/
def get_photo_thumbnail (st : ArchiveState) (photo_id : String) :
    Except ApiError FileResponse :=
  match st.photos.find? fun p => p.id == photo_id with
  | none => .error .photoNotFound
  | some p =>
    match p.thumbnail_path with
    | none => .error .thumbnailNotFound
    | some tp =>
      if ¬ (st.fs.contains tp = true) then .error .thumbnailNotFound
      else .ok { path := tp, media_type := "image/jpeg" }

/-- `PATCH /photos/{photo_id}/location` (`update_photo_location` in
`routes.py`).  The `PhotoLocationUpdate` body is validated by pydantic
(latitude in [-90,90], longitude in [-180,180]) before the handler runs, so
an out-of-range pair is rejected without touching any row.  A successful
update rewrites the row's latitude and longitude; the `onupdate=func.now()`
hook of `Photo.updated_at` refreshes that column at commit (`now`). -/
def update_photo_location (photos : List Photo) (photo_id : String)
    (latitude longitude : ℚ) (now : Nat) :
    List Photo × Except ApiError PhotoDetail :=
  if ¬ ((-90 : ℚ) ≤ latitude ∧ latitude ≤ 90 ∧
        (-180 : ℚ) ≤ longitude ∧ longitude ≤ 180) then
    (photos, .error .validationFailed)
  else
    match photos.find? fun p => p.id == photo_id with
    | none => (photos, .error .photoNotFound)
    | some p =>
      let p' := { p with latitude := latitude, longitude := longitude, updated_at := now }
      (photos.map fun q => if q.id == photo_id then p' else q, .ok p'.to_dict)

/-- `DELETE /photos/{photo_id}` (`delete_photo` in `routes.py`): remove the
original file if present, the thumbnail file if recorded and present, then
the row. -/
def delete_photo (st : ArchiveState) (photo_id : String) :
    ArchiveState × Except ApiError PhotoDeleteResponse :=
  match st.photos.find? fun p => p.id == photo_id with
  | none => (st, .error .photoNotFound)
  | some photo =>
    let fs1 :=
      if st.fs.contains photo.storage_path then st.fs.erase photo.storage_path
      else st.fs
    let fs2 :=
      match photo.thumbnail_path with
      | some tp => if fs1.contains tp then fs1.erase tp else fs1
      | none => fs1
    ({ users := st.users
       photos := st.photos.filter fun q => !(q.id == photo_id)
       fs := fs2 },
     .ok { success := true, message := "Photo deleted successfully" })

/-- Ordering on nullable timestamps: SQL NULLs sort after every value in
ascending order (PostgreSQL default). -/
def optNatLe : Option Nat → Option Nat → Bool
  | some a, some b => decide (a ≤ b)
  | some _, none => true
  | none, some _ => false
  | none, none => true

/-- The `sort_column` dictionary of `list_users`: `created_at`,
`photo_count`, `last_upload`, `username`, with `last_upload_at` as the
fallback for unknown keys.  Compares two users on the selected column. -/
def userSortLe (sort : String) (a b : User) : Bool :=
  if sort = "created_at" then decide (a.created_at ≤ b.created_at)
  else if sort = "photo_count" then decide (a.photo_count ≤ b.photo_count)
  else if sort = "username" then decide (a.username ≤ b.username)
  else optNatLe a.last_upload_at b.last_upload_at

/-- `ORDER BY` relation of `list_users`: ascending on the selected column
when `order == "asc"`, else descending. -/
def userOrderRel (sort ord : String) (a b : User) : Prop :=
  (if ord = "asc" then userSortLe sort a b else userSortLe sort b a) = true

instance (sort ord : String) : DecidableRel (userOrderRel sort ord) :=
  fun _ _ => instDecidableEqBool _ _

/-- The search filter of `list_users`: when a non-empty `search` term is
given, keep users whose username or display name contains it
case-insensitively (an ilike match on the term), mirroring the truthiness test
`if search:`. -/
def users_matching (search : Option String) (users : List User) : List User :=
  match search with
  | some s =>
    if s ≠ "" then users.filter fun u => ilike s u.username || ilike s u.display_name
    else users
  | none => users

/-- `GET /users` (`list_users` in `user_routes.py`).  FastAPI validates
`limit` (`ge=1, le=100`) and `offset` (`ge=0`) before the handler runs;
the handler filters by the search term, sorts, counts the filtered rows as
`total`, and windows by `offset`/`limit`. -/
def list_users (users : List User) (sort ord : String) (limit offset : Int)
    (search : Option String) : Except ApiError UserListResponse :=
  if ¬ (1 ≤ limit ∧ limit ≤ 100 ∧ 0 ≤ offset) then .error .validationFailed
  else
    let filtered := users_matching search users
    let ordered := filtered.insertionSort (userOrderRel sort ord)
    .ok { users := ((ordered.drop offset.toNat).take limit.toNat).map User.to_dict
          total := filtered.length
          limit := limit
          offset := offset }

/-- The `sort_column` dictionary of `list_user_photos`: `upload_date` or
`file_size`, with `upload_date` as the fallback for unknown keys. -/
def photoSortKey (sort : String) (p : Photo) : Nat :=
  if sort = "upload_date" then p.upload_date
  else if sort = "file_size" then p.file_size
  else p.upload_date

/-- `ORDER BY` relation of `list_user_photos`. -/
def photoOrderRel (sort ord : String) (a b : Photo) : Prop :=
  if ord = "asc" then photoSortKey sort a ≤ photoSortKey sort b
  else photoSortKey sort b ≤ photoSortKey sort a

instance (sort ord : String) : DecidableRel (photoOrderRel sort ord) := by
  intro a b
  unfold photoOrderRel
  split
  · exact Nat.decLe _ _
  · exact Nat.decLe _ _

/-- The bounding-box filter of `list_user_photos`:
`Photo.latitude >= south, Photo.latitude <= north, Photo.longitude >= west,
Photo.longitude <= east`. -/
def inBounds (n s e w : ℚ) (p : Photo) : Bool :=
  decide (s ≤ p.latitude) && decide (p.latitude ≤ n) &&
  decide (w ≤ p.longitude) && decide (p.longitude ≤ e)

/-- `GET /users/{user_id}/photos` (`list_user_photos` in `user_routes.py`).
FastAPI validates `limit` (`ge=1, le=500`) and `offset` (`ge=0`); the
handler 404s on an unknown user, filters the user's photos, applies the
bounding box only when `bounds` is truthy (non-`None` and non-empty),
rejects an unparsable box as a 400, sorts, counts the filtered rows as
`total`, and windows by `offset`/`limit`. -/
def list_user_photos (st : ArchiveState) (user_id : String)
    (limit offset : Int) (sort ord : String) (bounds : Option String) :
    Except ApiError PhotoListResponse :=
  if ¬ (1 ≤ limit ∧ limit ≤ 500 ∧ 0 ≤ offset) then .error .validationFailed
  else if (st.users.find? fun u => u.id == user_id).isNone then
    .error .userNotFound
  else
    let base := st.photos.filter fun p => p.user_id == user_id
    let filteredE : Except ApiError (List Photo) :=
      match bounds with
      | some b =>
        if b ≠ "" then
          match parseBounds b with
          | some (n, s, e, w) => .ok (base.filter (inBounds n s e w))
          | none => .error .invalidBounds
        else .ok base
      | none => .ok base
    match filteredE with
    | .error err => .error err
    | .ok filtered =>
      let ordered := filtered.insertionSort (photoOrderRel sort ord)
      .ok { photos := ((ordered.drop offset.toNat).take limit.toNat).map Photo.to_dict
            total := filtered.length
            limit := limit
            offset := offset }

/-- `DELETE /users/{user_id}` (`delete_user` in `user_routes.py`): 404 on an
unknown user.  The ORM relationship `Photo.user` declares no delete cascade
and no `passive_deletes`, while `photos.user_id` is NOT NULL, so flushing
`db.delete(user)` for a user who owns photo rows first de-associates the
children by emitting an UPDATE that nulls `photos.user_id`; that violates
the NOT NULL constraint, the resulting IntegrityError is caught by the
generic except branch, the transaction is rolled back and a 500 is
returned with nothing changed (the DDL-level `ondelete` cascade never
fires).  Only a user owning no photo rows is actually deleted; the reported
`photos_deleted` is the stored denormalized `photo_count` counter, read
before the delete, and no photo files are touched. -/
def delete_user (st : ArchiveState) (user_id : String) :
    ArchiveState × Except ApiError UserDeleteResponse :=
  match st.users.find? fun u => u.id == user_id with
  | none => (st, .error .userNotFound)
  | some u =>
    if st.photos.any fun p => p.user_id == user_id then
      (st, .error .internalError)
    else
      ({ users := st.users.filter fun v => !(v.id == user_id)
         photos := st.photos
         fs := st.fs },
       .ok { success := true
             message := "User deleted: " ++ u.username
             photos_deleted := u.photo_count })

instance {ε α : Type} [DecidableEq ε] [DecidableEq α] : DecidableEq (Except ε α) :=
  fun a b =>
    match a, b with
    | .error x, .error y => decidable_of_iff (x = y) (by simp)
    | .error _, .ok _ => isFalse nofun
    | .ok _, .error _ => isFalse nofun
    | .ok x, .ok y => decidable_of_iff (x = y) (by simp)

/-- A sample user row for concrete witnesses. -/
def u1 : User :=
  { id := "u1", username := "alice", display_name := "Alice", email := none
    avatar_path := none, photo_count := 0, total_storage_bytes := 0
    user_metadata := none, created_at := 0, updated_at := 0, last_upload_at := none }

/-- A one-user, empty-storage snapshot for concrete witnesses. -/
def st1 : ArchiveState := { users := [u1], photos := [], fs := [] }

/-- A stored photo row with both files on disk, for concrete witnesses. -/
def p4 : Photo :=
  { id := "p1", user_id := "u1", filename := "a.jpg", storage_path := "s"
    thumbnail_path := some "t", latitude := 0, longitude := 0, file_size := 5
    mime_type := "image/jpeg", photo_metadata := none, upload_date := 3
    created_at := 3, updated_at := 3 }

/-- A snapshot holding `p4` with its two files present. -/
def st4 : ArchiveState := { users := [u1], photos := [p4], fs := ["s", "t"] }

/-- A user row whose denormalized counter has drifted (it claims 5 photos
while one row exists). -/
def u10 : User := { u1 with id := "u2", username := "bob", display_name := "Bob", photo_count := 5 }

/-- A snapshot exhibiting counter drift: `photo_count = 5`, no actual rows
(the only kind of user this code can delete successfully). -/
def st10 : ArchiveState := { users := [u10], photos := [], fs := [] }

/-- A photo of the same user lying outside the `[0,1] × [0,1]` box. -/
def pOut : Photo := { p4 with id := "p9", latitude := 50, longitude := 50 }

/-- A snapshot with one in-box and one out-of-box photo of the same user. -/
def stW : ArchiveState := { users := [u1], photos := [p4, pOut], fs := [] }




/-- Claim C1: upload validation runs in the order user existence, file
extension allow-list, latitude range, longitude range, file size (with the
video/image ceiling), and every validation failure is a client error
returned with the storage state completely unchanged (no file written). -/
theorem upload_photo_validation_order (st : ArchiveState) (pid fn : String)
    (ct : Option String) (sz : Nat) (uid : String) (lat lon : ℚ) (tok : Bool)
    (now : Nat) :
    ((st.users.find? fun u => u.id == uid).isNone = true →
      upload_photo st pid fn ct sz uid lat lon tok now = (st, .error .userNotFound)) ∧
    ((st.users.find? fun u => u.id == uid).isNone = false →
      ALLOWED_EXTENSIONS.contains (lowerStr (fileExt fn)) = false →
      upload_photo st pid fn ct sz uid lat lon tok now = (st, .error .invalidFileType)) ∧
    ((st.users.find? fun u => u.id == uid).isNone = false →
      ALLOWED_EXTENSIONS.contains (lowerStr (fileExt fn)) = true →
      ¬ ((-90 : ℚ) ≤ lat ∧ lat ≤ 90) →
      upload_photo st pid fn ct sz uid lat lon tok now = (st, .error .invalidLatitude)) ∧
    ((st.users.find? fun u => u.id == uid).isNone = false →
      ALLOWED_EXTENSIONS.contains (lowerStr (fileExt fn)) = true →
      ((-90 : ℚ) ≤ lat ∧ lat ≤ 90) →
      ¬ ((-180 : ℚ) ≤ lon ∧ lon ≤ 180) →
      upload_photo st pid fn ct sz uid lat lon tok now = (st, .error .invalidLongitude)) ∧
    ((st.users.find? fun u => u.id == uid).isNone = false →
      ALLOWED_EXTENSIONS.contains (lowerStr (fileExt fn)) = true →
      ((-90 : ℚ) ≤ lat ∧ lat ≤ 90) →
      ((-180 : ℚ) ≤ lon ∧ lon ≤ 180) →
      sz > (if is_video_file fn then MAX_VIDEO_SIZE else MAX_FILE_SIZE) →
      upload_photo st pid fn ct sz uid lat lon tok now = (st, .error .fileTooLarge)) ∧
    (∀ e, (upload_photo st pid fn ct sz uid lat lon tok now).2 = .error e →
      e.isClientError = true ∧ (upload_photo st pid fn ct sz uid lat lon tok now).1 = st) := by
  refine ⟨?_, ?_, ?_, ?_, ?_, ?_⟩
  · intro h1
    simp [upload_photo, h1]
  · intro h1 h2
    have h2' : lowerStr (fileExt fn) ∉ ALLOWED_EXTENSIONS := by simpa using h2
    simp [upload_photo, h1, h2']
  · intro h1 h2 h3
    have h2' : lowerStr (fileExt fn) ∈ ALLOWED_EXTENSIONS := by simpa using h2
    simp [upload_photo, h1, h2', h3]
  · intro h1 h2 h3 h4
    have h2' : lowerStr (fileExt fn) ∈ ALLOWED_EXTENSIONS := by simpa using h2
    simp [upload_photo, h1, h2', h3.1, h3.2, h4]
  · intro h1 h2 h3 h4 h5
    have h2' : lowerStr (fileExt fn) ∈ ALLOWED_EXTENSIONS := by simpa using h2
    simp [upload_photo, h1, h2', h3.1, h3.2, h4.1, h4.2, h5]
  · intro e he
    simp only [upload_photo] at he ⊢
    by_cases c1 : (st.users.find? fun u => u.id == uid).isNone = true
    · rw [if_pos c1] at he ⊢
      cases he
      exact ⟨by decide, rfl⟩
    · rw [if_neg c1] at he ⊢
      by_cases c2 : ¬ (ALLOWED_EXTENSIONS.contains (lowerStr (fileExt fn)) = true)
      · rw [if_pos c2] at he ⊢
        cases he
        exact ⟨by decide, rfl⟩
      · rw [if_neg c2] at he ⊢
        by_cases c3 : ¬ ((-90 : ℚ) ≤ lat ∧ lat ≤ 90)
        · rw [if_pos c3] at he ⊢
          cases he
          exact ⟨by decide, rfl⟩
        · rw [if_neg c3] at he ⊢
          by_cases c4 : ¬ ((-180 : ℚ) ≤ lon ∧ lon ≤ 180)
          · rw [if_pos c4] at he ⊢
            cases he
            exact ⟨by decide, rfl⟩
          · rw [if_neg c4] at he ⊢
            by_cases c5 : sz > (if is_video_file fn then MAX_VIDEO_SIZE else MAX_FILE_SIZE)
            · rw [if_pos c5] at he ⊢
              cases he
              exact ⟨by decide, rfl⟩
            · rw [if_neg c5] at he
              exact absurd he (by simp)

/-- Claim C1 witness: with an existing user and an allowed extension,
latitude 91 is rejected as a 400 with the state unchanged. -/
theorem upload_photo_validation_order_witness :
    upload_photo st1 "pid1" "a.jpg" none 5 "u1" 91 0 true 7
      = (st1, .error .invalidLatitude) ∧
    ApiError.invalidLatitude.isClientError = true := by
  refine ⟨?_, by decide⟩
  exact (upload_photo_validation_order st1 "pid1" "a.jpg" none 5 "u1" 91 0 true 7).2.2.1
    (by decide) (by decide) (by decide)

/-- Claim C3: the size ceiling is chosen by the filename extension being one
of `.mp4`, `.mov`, `.avi`, `.webm`: an upload with an image extension and
more than 10MB is rejected as a client error, while the same byte count
under a video extension (within the 100MB video ceiling) passes the size
check and succeeds. -/
theorem upload_size_ceiling_by_extension (st : ArchiveState) (pid fn : String)
    (ct : Option String) (sz : Nat) (uid : String) (lat lon : ℚ) (tok : Bool)
    (now : Nat)
    (hu : (st.users.find? fun u => u.id == uid).isNone = false)
    (hlat : (-90 : ℚ) ≤ lat ∧ lat ≤ 90)
    (hlon : (-180 : ℚ) ≤ lon ∧ lon ≤ 180) :
    (is_video_file fn = VIDEO_EXTENSIONS.contains (lowerStr (fileExt fn))) ∧
    (lowerStr (fileExt fn) ∈ [".jpg", ".jpeg", ".png", ".webp"] →
      sz > MAX_FILE_SIZE →
      upload_photo st pid fn ct sz uid lat lon tok now = (st, .error .fileTooLarge) ∧
      ApiError.fileTooLarge.isClientError = true) ∧
    (is_video_file fn = true →
      sz ≤ MAX_VIDEO_SIZE →
      ∃ st' resp, upload_photo st pid fn ct sz uid lat lon tok now = (st', .ok resp)) := by
  refine ⟨rfl, ?_, ?_⟩
  · intro hext hsz
    have hall : lowerStr (fileExt fn) ∈ ALLOWED_EXTENSIONS := by
      simp only [List.mem_cons, List.not_mem_nil, or_false] at hext
      rcases hext with h | h | h | h <;> simp [ALLOWED_EXTENSIONS, h]
    have hvid : is_video_file fn = false := by
      simp only [List.mem_cons, List.not_mem_nil, or_false] at hext
      unfold is_video_file VIDEO_EXTENSIONS
      rcases hext with h | h | h | h <;> rw [h] <;> decide
    refine ⟨?_, by decide⟩
    simp [upload_photo, hu, hall, hlat.1, hlat.2, hlon.1, hlon.2, hvid, hsz]
  · intro hv hsz
    have hall : lowerStr (fileExt fn) ∈ ALLOWED_EXTENSIONS := by
      have := hv
      unfold is_video_file at this
      have hmem : lowerStr (fileExt fn) ∈ VIDEO_EXTENSIONS := by
        simpa using this
      simp only [VIDEO_EXTENSIONS, List.mem_cons, List.not_mem_nil, or_false] at hmem
      rcases hmem with h | h | h | h <;> simp [ALLOWED_EXTENSIONS, h]
    have hns : ¬ ((if is_video_file fn = true then MAX_VIDEO_SIZE else MAX_FILE_SIZE) < sz) := by
      rw [hv]
      simpa using Nat.not_lt.mpr hsz
    simp [upload_photo, hu, hall, hlat.1, hlat.2, hlon.1, hlon.2, hns]

/-- Claim C3 witness: 10MB+1 bytes is rejected for `a.jpg` but passes the
size check for `clip.mp4`. -/
theorem upload_size_ceiling_by_extension_witness :
    (upload_photo st1 "pid1" "a.jpg" none (10 * 1024 * 1024 + 1) "u1" 0 0 true 7
      = (st1, .error .fileTooLarge)) ∧
    (∃ st' resp,
      upload_photo st1 "pid2" "clip.mp4" none (10 * 1024 * 1024 + 1) "u1" 0 0 true 7
        = (st', .ok resp)) := by
  constructor
  · exact ((upload_size_ceiling_by_extension st1 "pid1" "a.jpg" none
      (10 * 1024 * 1024 + 1) "u1" 0 0 true 7 (by decide) (by decide) (by decide)).2.1
      (by decide) (by decide)).1
  · exact (upload_size_ceiling_by_extension st1 "pid2" "clip.mp4" none
      (10 * 1024 * 1024 + 1) "u1" 0 0 true 7 (by decide) (by decide) (by decide)).2.2
      (by decide) (by decide)

/-- Claim C8: once validation passes, the upload succeeds for either outcome
of thumbnail derivation; the response's thumbnail URL and the stored row's
thumbnail path are present exactly when derivation succeeded. -/
theorem upload_thumbnail_failure_nonfatal (st : ArchiveState) (pid fn : String)
    (ct : Option String) (sz : Nat) (uid : String) (lat lon : ℚ) (now : Nat)
    (hu : (st.users.find? fun u => u.id == uid).isNone = false)
    (hext : ALLOWED_EXTENSIONS.contains (lowerStr (fileExt fn)) = true)
    (hlat : (-90 : ℚ) ≤ lat ∧ lat ≤ 90)
    (hlon : (-180 : ℚ) ≤ lon ∧ lon ≤ 180)
    (hsz : sz ≤ (if is_video_file fn = true then MAX_VIDEO_SIZE else MAX_FILE_SIZE)) :
    ∀ tok, ∃ st' resp,
      upload_photo st pid fn ct sz uid lat lon tok now = (st', .ok resp) ∧
      resp.thumbnail_url
        = (if tok then some ("/api/v1/photos/" ++ pid ++ "/thumbnail") else none) ∧
      resp.thumbnail_url.isSome = tok ∧
      ∃ ph, st'.photos = ph :: st.photos ∧ ph.thumbnail_path.isSome = tok := by
  intro tok
  have hext' : lowerStr (fileExt fn) ∈ ALLOWED_EXTENSIONS := by simpa using hext
  have hns : ¬ ((if is_video_file fn = true then MAX_VIDEO_SIZE else MAX_FILE_SIZE) < sz) :=
    Nat.not_lt.mpr hsz
  cases tok <;>
    (simp [upload_photo, hu, hext', hlat.1, hlat.2, hlon.1, hlon.2, hns]
     exact ⟨_, _, ⟨rfl, rfl⟩, by simp⟩)

/-- Claim C8 witness: a concrete valid upload succeeds with and without a
thumbnail, and the thumbnail URL is present exactly in the latter case. -/
theorem upload_thumbnail_failure_nonfatal_witness :
    (∃ st' resp,
      upload_photo st1 "pid1" "a.jpg" none 5 "u1" 1 2 false 7 = (st', .ok resp) ∧
      resp.thumbnail_url = (if false then some ("/api/v1/photos/" ++ "pid1" ++ "/thumbnail") else none) ∧
      resp.thumbnail_url.isSome = false ∧
      ∃ ph, st'.photos = ph :: st1.photos ∧ ph.thumbnail_path.isSome = false) ∧
    (∃ st' resp,
      upload_photo st1 "pid1" "a.jpg" none 5 "u1" 1 2 true 7 = (st', .ok resp) ∧
      resp.thumbnail_url = (if true then some ("/api/v1/photos/" ++ "pid1" ++ "/thumbnail") else none) ∧
      resp.thumbnail_url.isSome = true ∧
      ∃ ph, st'.photos = ph :: st1.photos ∧ ph.thumbnail_path.isSome = true) :=
  ⟨upload_thumbnail_failure_nonfatal st1 "pid1" "a.jpg" none 5 "u1" 1 2 7
      (by decide) (by decide) (by decide) (by decide) (by decide) false,
   upload_thumbnail_failure_nonfatal st1 "pid1" "a.jpg" none 5 "u1" 1 2 7
      (by decide) (by decide) (by decide) (by decide) (by decide) true⟩

/-- Claim C9: a multipart file part with no content type is stored with
`mime_type = "image/jpeg"` (the `or` default), for video extensions too,
and the image endpoint then serves the stored file under that image MIME
type. -/
theorem upload_missing_content_type_defaults_jpeg (st : ArchiveState)
    (pid fn : String) (sz : Nat) (uid : String) (lat lon : ℚ) (tok : Bool)
    (now : Nat)
    (hu : (st.users.find? fun u => u.id == uid).isNone = false)
    (hext : ALLOWED_EXTENSIONS.contains (lowerStr (fileExt fn)) = true)
    (hlat : (-90 : ℚ) ≤ lat ∧ lat ≤ 90)
    (hlon : (-180 : ℚ) ≤ lon ∧ lon ≤ 180)
    (hsz : sz ≤ (if is_video_file fn = true then MAX_VIDEO_SIZE else MAX_FILE_SIZE)) :
    ∃ st' resp ph,
      upload_photo st pid fn none sz uid lat lon tok now = (st', .ok resp) ∧
      st'.photos = ph :: st.photos ∧
      ph.mime_type = "image/jpeg" ∧
      get_photo_image st' ph.id = .ok { path := ph.storage_path, media_type := "image/jpeg" } := by
  have hext' : lowerStr (fileExt fn) ∈ ALLOWED_EXTENSIONS := by simpa using hext
  have hns : ¬ ((if is_video_file fn = true then MAX_VIDEO_SIZE else MAX_FILE_SIZE) < sz) :=
    Nat.not_lt.mpr hsz
  cases tok <;>
    simp [upload_photo, get_photo_image, hu, hext', hlat.1, hlat.2, hlon.1, hlon.2, hns]

/-- Claim C9 witness: uploading `clip.mp4` (a video) with no content type
stores and serves it as `image/jpeg`. -/
theorem upload_missing_content_type_defaults_jpeg_witness :
    is_video_file "clip.mp4" = true ∧
    ∃ st' resp ph,
      upload_photo st1 "pid1" "clip.mp4" none 5 "u1" 1 2 true 7 = (st', .ok resp) ∧
      st'.photos = ph :: st1.photos ∧
      ph.mime_type = "image/jpeg" ∧
      get_photo_image st' ph.id = .ok { path := ph.storage_path, media_type := "image/jpeg" } :=
  ⟨by decide,
   upload_missing_content_type_defaults_jpeg st1 "pid1" "clip.mp4" 5 "u1" 1 2 true 7
     (by decide) (by decide) (by decide) (by decide) (by decide)⟩

/-- Membership in `if l.contains a then l.erase a else l` implies membership
in `l`. -/
theorem mem_of_mem_eraseIf {l : List String} {a x : String}
    (h : x ∈ (if l.contains a then l.erase a else l)) : x ∈ l := by
  revert h
  split
  · exact List.mem_of_mem_erase
  · exact id

/-- On a duplicate-free list, `if l.contains a then l.erase a else l` never
contains `a` (this is `if os.path.exists(p): os.remove(p)`). -/
theorem not_mem_eraseIf_self {l : List String} {a : String} (h : l.Nodup) :
    a ∉ (if l.contains a then l.erase a else l) := by
  split
  · intro hmem
    exact ((h.mem_erase_iff).1 hmem).1 rfl
  · next hc =>
    intro hmem
    exact hc (by simpa using hmem)

/-- `if l.contains a then l.erase a else l` preserves freedom from
duplicates. -/
theorem nodup_eraseIf {l : List String} {a : String} (h : l.Nodup) :
    (if l.contains a then l.erase a else l).Nodup := by
  split
  exacts [h.erase a, h]

/-- Claim C4: deleting an existing photo removes its original file, removes
its thumbnail file when one is recorded, removes the row, and afterwards the
detail, image and thumbnail endpoints all return not-found for that id. -/
theorem delete_photo_removes_everything (st : ArchiveState) (pid : String)
    (p : Photo)
    (hfind : st.photos.find? (fun q => q.id == pid) = some p)
    (hfs : st.fs.Nodup) :
    (delete_photo st pid).2
      = .ok { success := true, message := "Photo deleted successfully" } ∧
    p.storage_path ∉ (delete_photo st pid).1.fs ∧
    (∀ tp, p.thumbnail_path = some tp → tp ∉ (delete_photo st pid).1.fs) ∧
    (delete_photo st pid).1.photos.find? (fun q => q.id == pid) = none ∧
    get_photo (delete_photo st pid).1 pid = .error .photoNotFound ∧
    get_photo_image (delete_photo st pid).1 pid = .error .photoNotFound ∧
    get_photo_thumbnail (delete_photo st pid).1 pid = .error .photoNotFound := by
  have hfindnone :
      (st.photos.filter fun q => !(q.id == pid)).find? (fun q => q.id == pid) = none := by
    refine List.find?_eq_none.2 ?_
    intro x hx
    have hprop := List.of_mem_filter hx
    simp at hprop ⊢
    exact hprop
  cases hp : p.thumbnail_path with
  | none =>
    simp only [delete_photo, hfind, hp]
    refine ⟨trivial, ?_, ?_, hfindnone, ?_, ?_, ?_⟩
    · exact not_mem_eraseIf_self hfs
    · intro tp htp
      cases htp
    · simp [get_photo, hfindnone]
    · simp [get_photo_image, hfindnone]
    · simp [get_photo_thumbnail, hfindnone]
  | some tp =>
    simp only [delete_photo, hfind, hp]
    refine ⟨trivial, ?_, ?_, hfindnone, ?_, ?_, ?_⟩
    · intro hmem
      exact not_mem_eraseIf_self hfs (mem_of_mem_eraseIf hmem)
    · intro tp' htp'
      cases htp'
      exact not_mem_eraseIf_self (nodup_eraseIf hfs)
    · simp [get_photo, hfindnone]
    · simp [get_photo_image, hfindnone]
    · simp [get_photo_thumbnail, hfindnone]



/-- Claim C4 witness: deleting the concrete stored photo removes both files
and the row, and all three fetch endpoints 404. -/
theorem delete_photo_removes_everything_witness :
    (delete_photo st4 "p1").2
      = .ok { success := true, message := "Photo deleted successfully" } ∧
    p4.storage_path ∉ (delete_photo st4 "p1").1.fs ∧
    (∀ tp, p4.thumbnail_path = some tp → tp ∉ (delete_photo st4 "p1").1.fs) ∧
    (delete_photo st4 "p1").1.photos.find? (fun q => q.id == "p1") = none ∧
    get_photo (delete_photo st4 "p1").1 "p1" = .error .photoNotFound ∧
    get_photo_image (delete_photo st4 "p1").1 "p1" = .error .photoNotFound ∧
    get_photo_thumbnail (delete_photo st4 "p1").1 "p1" = .error .photoNotFound :=
  delete_photo_removes_everything st4 "p1" p4 (by decide) (by decide)

/-- Claim C7 counterexample: a location update does not leave every other
field unchanged — the row's `updated_at` column is refreshed by the
`onupdate=func.now()` hook (here the clock reads 9 against a stored 3), so
a field other than latitude/longitude changes. -/
theorem update_photo_location_counterexample :
    (update_photo_location [p4] "p1" 10 20 9).1
      = [{ p4 with latitude := 10, longitude := 20, updated_at := 9 }] ∧
    ({ p4 with latitude := 10, longitude := 20, updated_at := 9 } : Photo).updated_at
      ≠ p4.updated_at := by
  exact ⟨by decide, by decide⟩

/-- Claim C7 (amended): a location update with in-range coordinates rewrites
only latitude, longitude and the database-maintained `updated_at` timestamp
of the addressed row, leaving its other fields and all other rows unchanged;
out-of-range coordinates are rejected as a client error with no row
modified, under the same range rules as upload. -/
theorem update_photo_location_frame (photos : List Photo) (pid : String)
    (lat lon : ℚ) (now : Nat) :
    (¬ ((-90 : ℚ) ≤ lat ∧ lat ≤ 90 ∧ (-180 : ℚ) ≤ lon ∧ lon ≤ 180) →
      update_photo_location photos pid lat lon now
        = (photos, .error .validationFailed) ∧
      ApiError.validationFailed.isClientError = true) ∧
    (∀ p, ((-90 : ℚ) ≤ lat ∧ lat ≤ 90 ∧ (-180 : ℚ) ≤ lon ∧ lon ≤ 180) →
      photos.find? (fun q => q.id == pid) = some p →
      (update_photo_location photos pid lat lon now
        = (photos.map fun q =>
            if q.id == pid then
              { p with latitude := lat, longitude := lon, updated_at := now }
            else q,
           .ok ({ p with latitude := lat, longitude := lon, updated_at := now } : Photo).to_dict)) ∧
      (∀ q ∈ photos, q.id ≠ pid → q ∈ (update_photo_location photos pid lat lon now).1) ∧
      ({ p with latitude := lat, longitude := lon, updated_at := now } : Photo).id = p.id ∧
      ({ p with latitude := lat, longitude := lon, updated_at := now } : Photo).user_id = p.user_id ∧
      ({ p with latitude := lat, longitude := lon, updated_at := now } : Photo).filename = p.filename ∧
      ({ p with latitude := lat, longitude := lon, updated_at := now } : Photo).storage_path = p.storage_path ∧
      ({ p with latitude := lat, longitude := lon, updated_at := now } : Photo).thumbnail_path = p.thumbnail_path ∧
      ({ p with latitude := lat, longitude := lon, updated_at := now } : Photo).file_size = p.file_size ∧
      ({ p with latitude := lat, longitude := lon, updated_at := now } : Photo).mime_type = p.mime_type ∧
      ({ p with latitude := lat, longitude := lon, updated_at := now } : Photo).photo_metadata = p.photo_metadata ∧
      ({ p with latitude := lat, longitude := lon, updated_at := now } : Photo).upload_date = p.upload_date ∧
      ({ p with latitude := lat, longitude := lon, updated_at := now } : Photo).created_at = p.created_at ∧
      ({ p with latitude := lat, longitude := lon, updated_at := now } : Photo).latitude = lat ∧
      ({ p with latitude := lat, longitude := lon, updated_at := now } : Photo).longitude = lon ∧
      ({ p with latitude := lat, longitude := lon, updated_at := now } : Photo).updated_at = now) := by
  constructor
  · intro h
    exact ⟨by simp [update_photo_location, h], by decide⟩
  · intro p hr hfind
    have heq : update_photo_location photos pid lat lon now
        = (photos.map fun q =>
            if q.id == pid then
              { p with latitude := lat, longitude := lon, updated_at := now }
            else q,
           .ok ({ p with latitude := lat, longitude := lon, updated_at := now } : Photo).to_dict) := by
      simp [update_photo_location, hr.1, hr.2.1, hr.2.2.1, hr.2.2.2, hfind]
    refine ⟨heq, ?_, rfl, rfl, rfl, rfl, rfl, rfl, rfl, rfl, rfl, rfl, rfl, rfl, rfl⟩
    intro q hq hne
    rw [heq]
    exact List.mem_map.2 ⟨q, hq, by simp [hne]⟩

/-- Claim C7 witness: the amended update applied to the concrete stored
photo: in-range coordinates are written, the other rows and fields are
untouched, and `updated_at` takes the commit clock value. -/
theorem update_photo_location_frame_witness :
    (update_photo_location [p4] "p1" 10 20 9
      = ([p4].map fun q =>
          if q.id == "p1" then
            { p4 with latitude := 10, longitude := 20, updated_at := 9 }
          else q,
         .ok ({ p4 with latitude := 10, longitude := 20, updated_at := 9 } : Photo).to_dict)) ∧
    ({ p4 with latitude := 10, longitude := 20, updated_at := 9 } : Photo).filename = p4.filename ∧
    ({ p4 with latitude := 10, longitude := 20, updated_at := 9 } : Photo).latitude = 10 := by
  have h := (update_photo_location_frame [p4] "p1" 10 20 9).2 p4
    (by decide) (by decide)
  exact ⟨h.1, h.2.2.2.2.1, h.2.2.2.2.2.2.2.2.2.2.2.2.1⟩

/-- Claim C10: a user delete is only successful when the user owns no photo
rows (otherwise the ORM null-out of the NOT NULL `user_id` raises, the
transaction rolls back and a 500 leaves everything unchanged).  A successful
delete reports `photos_deleted` equal to the stored denormalized
`photo_count` counter read at the moment of deletion, not the number of
photo rows actually removed — which is zero — so whenever the counter has
drifted from the true row count the reported number differs from the number
of photos deleted. -/
theorem delete_user_reports_counter (st : ArchiveState) (uid : String)
    (u : User)
    (hfind : st.users.find? (fun v => v.id == uid) = some u) :
    ((st.photos.any fun p => p.user_id == uid) = true →
      delete_user st uid = (st, .error .internalError) ∧
      ApiError.internalError.statusCode = 500) ∧
    ((st.photos.any fun p => p.user_id == uid) = false →
      (delete_user st uid).2
        = .ok { success := true, message := "User deleted: " ++ u.username
                photos_deleted := u.photo_count } ∧
      (delete_user st uid).1.photos = st.photos ∧
      (st.photos.countP fun p => p.user_id == uid) = 0 ∧
      (u.photo_count ≠ ((st.photos.countP fun p => p.user_id == uid : Nat) : Int) →
        ∃ resp, (delete_user st uid).2 = .ok resp ∧
          resp.photos_deleted
            ≠ ((st.photos.countP fun p => p.user_id == uid : Nat) : Int))) := by
  constructor
  · intro hany
    exact ⟨by simp only [delete_user, hfind, hany, if_pos], rfl⟩
  · intro hnone
    have hcount : (st.photos.countP fun p => p.user_id == uid) = 0 := by
      rw [List.countP_eq_zero]
      intro p hp
      exact (List.any_eq_false.1 hnone) p hp
    have heq : delete_user st uid
        = ({ users := st.users.filter fun v => !(v.id == uid)
             photos := st.photos
             fs := st.fs },
           .ok { success := true, message := "User deleted: " ++ u.username
                 photos_deleted := u.photo_count }) := by
      simp [delete_user, hfind, hnone]
    rw [heq]
    exact ⟨rfl, rfl, hcount, fun hne => ⟨_, rfl, hne⟩⟩

/-- Claim C10 witness: deleting a user who owns a photo fails with a 500
and changes nothing, while deleting the drifted photo-less user succeeds,
reports 5 photos deleted, and removes 0 rows. -/
theorem delete_user_reports_counter_witness :
    (delete_user st4 "u1" = (st4, .error .internalError)) ∧
    ((delete_user st10 "u2").2
      = .ok { success := true, message := "User deleted: " ++ "bob", photos_deleted := 5 }) ∧
    ((st10.photos.countP fun p => p.user_id == "u2") = 0) ∧
    (∃ resp, (delete_user st10 "u2").2 = .ok resp ∧
      resp.photos_deleted ≠ ((st10.photos.countP fun p => p.user_id == "u2" : Nat) : Int)) := by
  have hbusy := delete_user_reports_counter st4 "u1" u1 (by decide)
  have hfree := delete_user_reports_counter st10 "u2" u10 (by decide)
  exact ⟨(hbusy.1 (by decide)).1, (hfree.2 (by decide)).1,
    (hfree.2 (by decide)).2.2.1, (hfree.2 (by decide)).2.2.2 (by decide)⟩

/-- Claim C5: on a fixed snapshot with distinct rows, every photo-list page
is ordered newest upload first, and the pages `limit=10,offset=0` and
`limit=10,offset=10` are disjoint and concatenate to the first 20 elements
of the full ordered sequence — no overlap, no gap. -/
theorem get_photos_pages_partition (photos : List Photo)
    (hnd : photos.Nodup) :
    (∀ limit offset, ∃ resp, get_photos photos limit offset = .ok resp ∧
      resp.photos.Pairwise (fun a b => b.upload_date ≤ a.upload_date)) ∧
    (∃ r0 r1, get_photos photos 10 0 = .ok r0 ∧ get_photos photos 10 10 = .ok r1 ∧
      r0.photos = ((photos.insertionSort upload_desc).take 10).map Photo.to_dict ∧
      r1.photos = (((photos.insertionSort upload_desc).drop 10).take 10).map Photo.to_dict ∧
      ((photos.insertionSort upload_desc).take 10).Disjoint
        (((photos.insertionSort upload_desc).drop 10).take 10) ∧
      ((photos.insertionSort upload_desc).take 10)
          ++ (((photos.insertionSort upload_desc).drop 10).take 10)
        = (photos.insertionSort upload_desc).take 20) := by
  have hsorted : (photos.insertionSort upload_desc).Pairwise upload_desc :=
    List.sorted_insertionSort upload_desc photos
  have hnd' : (photos.insertionSort upload_desc).Nodup :=
    ((List.perm_insertionSort upload_desc photos).symm).nodup hnd
  constructor
  · intro limit offset
    refine ⟨_, rfl, ?_⟩
    rw [List.pairwise_map]
    exact (hsorted.sublist
      ((List.take_sublist _ _).trans (List.drop_sublist _ _)))
  · refine ⟨_, _, rfl, rfl, by simp [get_photos], rfl, ?_, ?_⟩
    · intro a ha hb
      exact (List.disjoint_take_drop hnd' (Nat.le_refl 10)) ha
        (List.mem_of_mem_take hb)
    · rw [← List.take_add]

/-- Claim C5 witness: the partition instantiated on a concrete one-photo
snapshot. -/
theorem get_photos_pages_partition_witness :
    (∃ resp, get_photos [p4] 10 0 = .ok resp ∧
      resp.photos.Pairwise (fun a b => b.upload_date ≤ a.upload_date)) ∧
    (∃ r0 r1, get_photos [p4] 10 0 = .ok r0 ∧ get_photos [p4] 10 10 = .ok r1 ∧
      r0.photos = (([p4].insertionSort upload_desc).take 10).map Photo.to_dict ∧
      r1.photos = ((([p4].insertionSort upload_desc).drop 10).take 10).map Photo.to_dict ∧
      (([p4].insertionSort upload_desc).take 10).Disjoint
        ((([p4].insertionSort upload_desc).drop 10).take 10) ∧
      (([p4].insertionSort upload_desc).take 10)
          ++ ((([p4].insertionSort upload_desc).drop 10).take 10)
        = ([p4].insertionSort upload_desc).take 20) :=
  ⟨(get_photos_pages_partition [p4] (by decide)).1 10 0,
   (get_photos_pages_partition [p4] (by decide)).2⟩

/-- Claim C6 counterexample: the global photo listing (`GET /photos`)
declares no bounds on `limit`: a request with `limit=501` is served
normally (echoing the limit) instead of being rejected as a client error,
so not every listing endpoint enforces the 1–500 / 1–100 bounds. -/
theorem get_photos_no_limit_bound_counterexample :
    get_photos [] 501 0 = .ok { photos := [], total := 0, limit := 501, offset := 0 } := by
  decide

/-- Claim C6 (amended): the user listing validates `limit` to 1–100 and the
per-user photo listing to 1–500 (rejecting out-of-range values, and negative
offsets, as client errors), while the global photo listing applies no bound
to `limit`; every listing's `total` is the count of all rows matching the
filters, independent of the `limit`/`offset` window. -/
theorem listing_limit_bounds_and_total (users : List User) (sort ord : String)
    (limit offset : Int) (search : Option String) (st : ArchiveState)
    (uid : String) (photos : List Photo) (l o : Nat) :
    (¬ (1 ≤ limit ∧ limit ≤ 100 ∧ 0 ≤ offset) →
      list_users users sort ord limit offset search = .error .validationFailed ∧
      ApiError.validationFailed.isClientError = true) ∧
    ((1 ≤ limit ∧ limit ≤ 100 ∧ 0 ≤ offset) →
      ∃ resp, list_users users sort ord limit offset search = .ok resp ∧
        resp.total = (users_matching search users).length) ∧
    (¬ (1 ≤ limit ∧ limit ≤ 500 ∧ 0 ≤ offset) →
      list_user_photos st uid limit offset sort ord none = .error .validationFailed) ∧
    ((1 ≤ limit ∧ limit ≤ 500 ∧ 0 ≤ offset) →
      (st.users.find? fun u => u.id == uid).isNone = false →
      ∃ resp, list_user_photos st uid limit offset sort ord none = .ok resp ∧
        resp.total = (st.photos.filter fun p => p.user_id == uid).length) ∧
    (∃ resp, get_photos photos l o = .ok resp ∧ resp.total = photos.length) := by
  refine ⟨?_, ?_, ?_, ?_, ⟨_, rfl, rfl⟩⟩
  · intro h
    exact ⟨by simp [list_users, h], by decide⟩
  · intro h
    simp [list_users, h.1, h.2.1, h.2.2]
  · intro h
    simp [list_user_photos, h]
  · intro h hu
    simp [list_user_photos, h.1, h.2.1, h.2.2, hu]

/-- Claim C6 witness: `limit=0` is rejected by the user listing, `limit=50`
is accepted with the full matching count as `total`, `limit=501` is rejected
by the per-user photo listing, `limit=500` accepted, and the global photo
listing reports `total` regardless of the window. -/
theorem listing_limit_bounds_and_total_witness :
    (list_users [u1] "last_upload" "desc" 0 0 none = .error .validationFailed) ∧
    (∃ resp, list_users [u1] "last_upload" "desc" 50 0 none = .ok resp ∧
      resp.total = (users_matching none [u1]).length) ∧
    (list_user_photos st4 "u1" 501 0 "upload_date" "desc" none = .error .validationFailed) ∧
    (∃ resp, list_user_photos st4 "u1" 500 0 "upload_date" "desc" none = .ok resp ∧
      resp.total = (st4.photos.filter fun p => p.user_id == "u1").length) ∧
    (∃ resp, get_photos [p4] 501 7 = .ok resp ∧ resp.total = [p4].length) := by
  refine ⟨?_, ?_, ?_, ?_, ?_⟩
  · exact ((listing_limit_bounds_and_total [u1] "last_upload" "desc" 0 0 none st4 "u1" [p4] 501 7).1
      (by decide)).1
  · exact (listing_limit_bounds_and_total [u1] "last_upload" "desc" 50 0 none st4 "u1" [p4] 501 7).2.1
      (by decide)
  · exact (listing_limit_bounds_and_total [u1] "last_upload" "desc" 501 0 none st4 "u1" [p4] 501 7).2.2.1
      (by decide)
  · exact (listing_limit_bounds_and_total [u1] "last_upload" "desc" 500 0 none st4 "u1" [p4] 501 7).2.2.2.1
      (by decide) (by decide)
  · exact (listing_limit_bounds_and_total [u1] "last_upload" "desc" 500 0 none st4 "u1" [p4] 501 7).2.2.2.2

/-- Claim C2 counterexample: an empty `bounds` value is malformed under the
claim (it splits into one non-numeric component, not four floats:
`parseBounds "" = none`), yet the request is served with no filter applied
instead of being rejected with a client error, because the handler tests
Python truthiness (`if bounds:`) before parsing. -/
theorem list_user_photos_empty_bounds_counterexample :
    parseBounds "" = none ∧
    list_user_photos st4 "u1" 100 0 "upload_date" "desc" (some "")
      = .ok { photos := [p4.to_dict], total := 1, limit := 100, offset := 0 } := by
  exact ⟨by decide, by decide⟩

/-- Claim C2 (amended): with a *non-empty* malformed bounds value (wrong
arity or non-numeric component) the listing is rejected as a client error;
an empty bounds value is treated as absent; with well-formed bounds the
result set — the reported `total` and the ordering the pages window — is
exactly the user's photos with latitude in `[south, north]` and longitude
in `[west, east]`. -/
theorem list_user_photos_bounds_filter (st : ArchiveState) (uid : String)
    (limit offset : Int) (sort ord : String) (b : String)
    (hv : 1 ≤ limit ∧ limit ≤ 500 ∧ 0 ≤ offset)
    (hu : (st.users.find? fun u => u.id == uid).isNone = false) :
    (b ≠ "" → parseBounds b = none →
      list_user_photos st uid limit offset sort ord (some b) = .error .invalidBounds ∧
      ApiError.invalidBounds.isClientError = true) ∧
    (list_user_photos st uid limit offset sort ord (some "")
      = list_user_photos st uid limit offset sort ord none) ∧
    (∀ n s e w p,
      p ∈ ((st.photos.filter fun q => q.user_id == uid).filter (inBounds n s e w)) ↔
      p ∈ st.photos ∧ p.user_id = uid ∧
      s ≤ p.latitude ∧ p.latitude ≤ n ∧ w ≤ p.longitude ∧ p.longitude ≤ e) ∧
    (∀ n s e w, b ≠ "" → parseBounds b = some (n, s, e, w) →
      ∃ resp, list_user_photos st uid limit offset sort ord (some b) = .ok resp ∧
        resp.total
          = ((st.photos.filter fun q => q.user_id == uid).filter (inBounds n s e w)).length ∧
        ∃ ordered : List Photo,
          List.Perm ordered
            ((st.photos.filter fun q => q.user_id == uid).filter (inBounds n s e w)) ∧
          resp.photos = ((ordered.drop offset.toNat).take limit.toNat).map Photo.to_dict) := by
  refine ⟨?_, ?_, ?_, ?_⟩
  · intro hb hpb
    exact ⟨by simp [list_user_photos, hv.1, hv.2.1, hv.2.2, hu, hb, hpb], by decide⟩
  · simp [list_user_photos]
  · intro n s e w p
    simp only [List.mem_filter, inBounds, Bool.and_eq_true, decide_eq_true_eq, beq_iff_eq]
    tauto
  · intro n s e w hb hpb
    have heq : list_user_photos st uid limit offset sort ord (some b)
        = .ok { photos :=
                  (((((st.photos.filter fun q => q.user_id == uid).filter
                        (inBounds n s e w)).insertionSort
                        (photoOrderRel sort ord)).drop offset.toNat).take limit.toNat).map
                    Photo.to_dict
                total := ((st.photos.filter fun q => q.user_id == uid).filter
                    (inBounds n s e w)).length
                limit := limit
                offset := offset } := by
      simp [list_user_photos, hv.1, hv.2.1, hv.2.2, hu, hb, hpb]
    exact ⟨_, heq, rfl, _, List.perm_insertionSort _ _, rfl⟩



/-- Claim C2 witness: with bounds `1,0,1,0` the result set is exactly the
in-box photo (`total = 1`, the out-of-box photo excluded), and a non-empty
malformed bounds value is a client error. -/
theorem list_user_photos_bounds_filter_witness :
    (list_user_photos stW "u1" 100 0 "upload_date" "desc" (some "1,0,1")
      = .error .invalidBounds) ∧
    (∃ resp, list_user_photos stW "u1" 100 0 "upload_date" "desc" (some "1,0,1,0") = .ok resp ∧
      resp.total
        = ((stW.photos.filter fun q => q.user_id == "u1").filter (inBounds 1 0 1 0)).length ∧
      ∃ ordered : List Photo,
        List.Perm ordered
          ((stW.photos.filter fun q => q.user_id == "u1").filter (inBounds 1 0 1 0)) ∧
        resp.photos = ((ordered.drop (0 : Int).toNat).take (100 : Int).toNat).map Photo.to_dict) ∧
    ((stW.photos.filter fun q => q.user_id == "u1").filter (inBounds 1 0 1 0)) = [p4] := by
  refine ⟨?_, ?_, by decide⟩
  · exact ((list_user_photos_bounds_filter stW "u1" 100 0 "upload_date" "desc" "1,0,1"
      (by decide) (by decide)).1 (by decide) (by decide)).1
  · exact (list_user_photos_bounds_filter stW "u1" 100 0 "upload_date" "desc" "1,0,1,0"
      (by decide) (by decide)).2.2.2 1 0 1 0 (by decide) (by decide)

end PhotoArchive
